import Mathlib

/-!
Shallow embedding of the selection-and-analysis engine of
`src/audio_trimmer.py` (class `AudioTrimmer`), together with proofs about
its behaviour.  Pure fragments of the Python methods become Lean
functions; the mutable attributes of the class become an explicit state
record threaded through the event handlers.  Rational numbers stand for
Python floats (all computations the claims touch are exact), integers for
Python ints, and an `FV` value type records the IEEE special values that
numpy division can produce.
-/

namespace AudioTrim

/-- Truncation toward zero: the behaviour of Python's `int()` applied to a
rational value, as in `int(self.start_var.get() * 1000)`. -/
def pyInt (q : ℚ) : ℤ := if q < 0 then -⌊-q⌋ else ⌊q⌋

/-- Decoded audio handle as the external pydub collaborator exposes it to
the source code: `len(audio)` is the duration in milliseconds and
`frame_rate` the sample rate (lines 74-76). -/
structure PydubAudio where
  length_ms : ℕ
  frame_rate : ℕ
deriving DecidableEq

/-- Mutable state of the `AudioTrimmer` class: the attributes initialised
in `__init__` (lines 16-21) plus the tk variables bound to the widgets
(`unit_var`, `start_var`, `end_var`) and the slider range configuration
set by `update_unit`. -/
structure TrimmerState where
  audio : Option PydubAudio
  sample_rate : ℕ
  audio_duration : ℚ
  time_unit : String
  start_var : ℚ
  end_var : ℚ
  dragging : Option String
  updating_sliders : Bool
  slider_to : ℚ
  slider_resolution : ℚ
deriving DecidableEq

/-- Embeds `AudioTrimmer.update_unit` (lines 80-92): reads the unit radio
variable, computes the maximal slider value and resolution for that unit,
reconfigures both sliders and resets them to `0` and the maximal value.
The trailing `update_waveform(None)` call only redraws. -/
def update_unit (st : TrimmerState) : TrimmerState :=
  let unit := st.time_unit
  let max_value := if unit = "seconds" then st.audio_duration else st.audio_duration * 1000
  let resolution : ℚ := if unit = "seconds" then 1 / 1000 else 1
  { st with slider_to := max_value, slider_resolution := resolution,
            start_var := 0, end_var := max_value }

/-- Selecting a unit radio button stores the value in `unit_var` and
invokes `update_unit` (lines 33-34). -/
def set_unit (u : String) (st : TrimmerState) : TrimmerState :=
  update_unit { st with time_unit := u }

/-- Embeds `AudioTrimmer.load_audio` (lines 72-78): stores the decoded
audio, its frame rate and its duration converted to seconds, then calls
`update_unit`. -/
def load_audio (st : TrimmerState) (buf : PydubAudio) : TrimmerState :=
  update_unit { st with audio := some buf, sample_rate := buf.frame_rate,
                        audio_duration := (buf.length_ms : ℚ) / 1000 }

/-- Embeds `AudioTrimmer.on_press` (lines 136-145).  `xdata = none` models
a matplotlib event whose `xdata` attribute is `None` (pointer outside the
axes). -/
def on_press (st : TrimmerState) (xdata : Option ℚ) : TrimmerState :=
  match st.audio, xdata with
  | none, _ => st
  | some _, none => st
  | some _, some x =>
    if |x - st.start_var| < |x - st.end_var| then
      { st with dragging := some "start", start_var := x }
    else
      { st with dragging := some "end", end_var := x }

/-- Python truthiness of the optional pointer coordinate `event.xdata`:
`None` and `0.0` are falsy, every other float is truthy. -/
def truthy_x : Option ℚ → Bool
  | none => false
  | some x => x ≠ 0

/-- Python truthiness of `self.dragging`: `None` and the empty string are
falsy, the strings actually stored ("start", "end") are truthy. -/
def truthy_drag : Option String → Bool
  | none => false
  | some s => s ≠ ""

/-- Embeds `AudioTrimmer.on_drag` (lines 147-154).  The guard
`if self.dragging and event.xdata:` tests Python truthiness of both
values; the body updates whichever boundary is being dragged.  The
trailing `update_waveform(None)` call only redraws. -/
def on_drag (st : TrimmerState) (xdata : Option ℚ) : TrimmerState :=
  if truthy_drag st.dragging = true ∧ truthy_x xdata = true then
    match xdata with
    | some x =>
      if st.dragging = some "start" then { st with start_var := x }
      else if st.dragging = some "end" then { st with end_var := x }
      else st
    | none => st
  else st

/-- Embeds `AudioTrimmer.on_release` (lines 156-158). -/
def on_release (st : TrimmerState) : TrimmerState :=
  { st with dragging := none }

/-- Millisecond bounds the source hands to pydub slicing: both
`update_waveform` (lines 99-100) and `trim_audio` (lines 166-167) compute
`int(var * 1000)` irrespective of the active display unit. -/
def sliceRequestMs (st : TrimmerState) : ℤ × ℤ :=
  (pyInt (st.start_var * 1000), pyInt (st.end_var * 1000))

/-- Conversion to canonical milliseconds following the words of spec
§4.1: seconds scale by 1000, milliseconds pass through, floor rounding.
This is the spec-side definition, kept for comparison with the code-side
`sliceRequestMs`. -/
def toMs_spec (unit : String) (v : ℚ) : ℤ :=
  if unit = "seconds" then ⌊v * 1000⌋ else ⌊v⌋

/-- Outcome of `AudioTrimmer.trim_audio` (lines 160-179).  `errorMsg`
models a `messagebox.showerror` followed by `return` (no further effect,
in particular no file dialog and no write); `cancelled` models an empty
path from the save dialog; `exported` records the slice bounds and the
format string handed to `trimmed_audio.export`. -/
inductive TrimResult where
  | errorMsg (msg : String)
  | cancelled
  | exported (sliceStartMs sliceEndMs : ℤ) (path fmt : String)
deriving DecidableEq

/-- Python's `str.split` with a one-character separator, over the
character list of the string: splitting never yields an empty list (the
empty string splits to `[[]]`), matching `"out.mp3".split(".")` giving
`["out", "mp3"]`. -/
def pySplit (sep : Char) : List Char → List (List Char)
  | [] => [[]]
  | c :: cs =>
    let r := pySplit sep cs
    if c = sep then [] :: r
    else
      match r with
      | [] => [[c]]
      | h :: t => (c :: h) :: t

/-- The value of `output_path.split(".")[-1]` (line 178): the last
component of the path split at dots. -/
def lastDotComponent (s : String) : String :=
  String.mk ((pySplit '.' s.data).getLastD [])

/-- Embeds `AudioTrimmer.trim_audio` (lines 160-179), with the path the
save dialog would return passed as an argument.  The format handed to the
codec is `output_path.split(".")[-1]`. -/
def trim_audio (st : TrimmerState) (output_path : String) : TrimResult :=
  if st.audio = none then .errorMsg "No audio file selected."
  else
    let start_ms := pyInt (st.start_var * 1000)
    let end_ms := pyInt (st.end_var * 1000)
    if end_ms ≤ start_ms then .errorMsg "End time must be greater than start time."
    else if output_path = "" then .cancelled
    else .exported start_ms end_ms output_path (lastDotComponent output_path)

/-- Value produced by numpy floating arithmetic on the (integer-valued)
samples: a finite rational, or one of the IEEE special values that
division by zero yields without raising an exception. -/
inductive FV where
  | fin (q : ℚ)
  | nan
  | infp
  | infn
deriving DecidableEq

/-- The value of `np.max(np.abs(samples))` on an integer sample list
(`0` on the empty list, where numpy would instead raise; the source only
evaluates it on non-empty lists). -/
def maxAbs (l : List ℤ) : ℕ := l.foldr (fun x m => max x.natAbs m) 0

/-- IEEE division of an integer sample by the non-negative maximum, as
numpy performs it elementwise: `0/0` is NaN, `x/0` is a signed infinity,
otherwise the exact quotient. -/
def ieeeDivZ (x : ℤ) (m : ℕ) : FV :=
  if m = 0 then (if x = 0 then .nan else if 0 < x then .infp else .infn)
  else .fin ((x : ℚ) / (m : ℚ))

/-- Embeds line 106 of the source:
`samples = samples / np.max(np.abs(samples)) if len(samples) > 0 else samples`.
Note that the guard tests only for emptiness, not for a zero maximum. -/
def npNormalize (l : List ℤ) : List FV :=
  if 0 < l.length then l.map (fun x => ieeeDivZ x (maxAbs l))
  else l.map (fun x => .fin (x : ℚ))

/-- The value of `np.linspace(a, b, num=n)`: `n` points from `a` to `b`
inclusive (`[]` for `n = 0`, `[a]` for `n = 1`). -/
def linspace (a b : ℚ) (n : ℕ) : List ℚ :=
  if n = 0 then []
  else if n = 1 then [a]
  else (List.range n).map (fun i => a + (b - a) * i / ((n : ℚ) - 1))

/-- Absolute value on the numpy value type, `np.abs`. -/
def fabs : FV → FV
  | .fin q => .fin |q|
  | .nan => .nan
  | .infp => .infp
  | .infn => .infp

/-- The four data sequences `update_waveform` derives and draws:
normalized amplitudes, time axis, one-sided spectrum magnitudes and the
matching frequencies. -/
structure AnalysisOutput where
  amplitudes : List FV
  timeAxis : List ℚ
  spectrumMagnitudes : List FV
  spectrumFreqs : List ℚ
deriving DecidableEq

/-- Embeds the analysis part of `AudioTrimmer.update_waveform`
(lines 105-120), from the raw integer samples of the slice onward.  The
scipy transform is an external collaborator and is passed in as the
function `fft`; the source applies it only under the guard
`if len(samples) > 0`, takes magnitudes with `np.abs`, and keeps the
first `len(samples) // 2` bins, whose frequencies
`np.fft.fftfreq(n, d=1/rate)[:n//2]` are `k * rate / n`. -/
def update_waveform_analysis (fft : List FV → List FV) (rate : ℕ)
    (startD endD : ℚ) (raw : List ℤ) : AnalysisOutput :=
  let samples := npNormalize raw
  let timeAxis := linspace startD endD samples.length
  if 0 < samples.length then
    { amplitudes := samples, timeAxis := timeAxis,
      spectrumMagnitudes := ((fft samples).map fabs).take (samples.length / 2),
      spectrumFreqs := (List.range (samples.length / 2)).map
        (fun k => (k : ℚ) * rate / samples.length) }
  else
    { amplitudes := samples, timeAxis := timeAxis,
      spectrumMagnitudes := [], spectrumFreqs := [] }

/-- Decoded audio buffer as the spec's §3 data model describes it. -/
structure AudioBuffer where
  samples : List ℤ
  sampleRate : ℕ
  channelCount : ℕ
  durationMs : ℕ
deriving DecidableEq

/-- Conversion of a millisecond position to a frame index with the floor
convention of spec §4.1. -/
def msToFrame (rate t : ℕ) : ℕ := t * rate / 1000

/-- Clamp of a (possibly negative) millisecond request into
`[0, durationMs]`, as spec §4.2 prescribes. -/
def clampMs (dur : ℕ) (t : ℤ) : ℕ := (max 0 (min t (dur : ℤ))).toNat

/-- Modelled from the spec: `AudioBuffer.slice` is implemented by the
external pydub dependency (`AudioSegment.__getitem__`, invoked at lines
102 and 173 of the source), whose code is not part of this repository.
Following the contract of spec §4.2: both bounds are clamped into
`[0, durationMs]`, an inverted range after clamping yields the empty
sequence, and otherwise the frames between the floor frame indices of the
two bounds are returned (all `channelCount` interleaved samples of each
frame). -/
def AudioBuffer.slice (b : AudioBuffer) (startMs endMs : ℤ) : List ℤ :=
  let s := clampMs b.durationMs startMs
  let e := clampMs b.durationMs endMs
  if e ≤ s then []
  else (b.samples.drop (msToFrame b.sampleRate s * b.channelCount)).take
        ((msToFrame b.sampleRate e - msToFrame b.sampleRate s) * b.channelCount)

/-! Concrete states used by the closed theorems below.  All are reachable:
a 10-second (respectively 5-second) file has been loaded and the user then
moved the sliders or pressed the unit radio buttons. -/

/-- A 10 s file loaded, unit switched to milliseconds, sliders at 1000 and
2000 (interpreted by the UI as milliseconds). -/
def msModeState : TrimmerState :=
  ⟨some ⟨10000, 44100⟩, 44100, 10, "milliseconds", 1000, 2000, none, false, 10000, 1⟩

/-- A 10 s file loaded, seconds unit, selection dragged to 1 s and 9 s. -/
def secState : TrimmerState :=
  ⟨some ⟨10000, 44100⟩, 44100, 10, "seconds", 1, 9, none, false, 10, 1 / 1000⟩

/-- A 10000 ms file loaded, milliseconds unit, selection at 1000 and 9000. -/
def pressState : TrimmerState :=
  ⟨some ⟨10000, 44100⟩, 44100, 10, "milliseconds", 1000, 9000, none, false, 10000, 1⟩

/-- The press state with a start-boundary drag in progress. -/
def dragStartState : TrimmerState :=
  { pressState with dragging := some "start" }

/-- A 5 s file loaded, seconds unit, inverted selection 2 s to 1 s. -/
def invertedState : TrimmerState :=
  ⟨some ⟨5000, 44100⟩, 44100, 5, "seconds", 2, 1, none, false, 5, 1 / 1000⟩

/-- The 5 s file with the valid selection 1 s to 2 s. -/
def validState : TrimmerState :=
  { invertedState with start_var := 1, end_var := 2 }

/-! Projection lemmas: `update_unit` and its callers only rearrange record
fields, so these are all definitional. -/

theorem update_unit_start_var (st : TrimmerState) : (update_unit st).start_var = 0 := rfl

theorem update_unit_end_var (st : TrimmerState) :
    (update_unit st).end_var
      = if st.time_unit = "seconds" then st.audio_duration else st.audio_duration * 1000 := rfl

theorem set_unit_time_unit (u : String) (st : TrimmerState) : (set_unit u st).time_unit = u := rfl

theorem set_unit_audio_duration (u : String) (st : TrimmerState) :
    (set_unit u st).audio_duration = st.audio_duration := rfl

theorem load_audio_end_var (st : TrimmerState) (buf : PydubAudio) :
    (load_audio st buf).end_var
      = if st.time_unit = "seconds" then (buf.length_ms : ℚ) / 1000
        else (buf.length_ms : ℚ) / 1000 * 1000 := rfl

/-- Claim C2 (counterexample): toggling the unit Seconds→Milliseconds→Seconds
does not restore the selection.  Starting from the reachable state with a
10 s file and selection 1 s to 9 s, the double toggle leaves the selection
at 0 s to 10 s, so the canonical millisecond selection has changed from
(1000, 9000) to (0, 10000). -/
theorem unit_toggle_counterexample :
    (set_unit "seconds" (set_unit "milliseconds" secState)).time_unit = "seconds" ∧
    secState.time_unit = "seconds" ∧
    (set_unit "seconds" (set_unit "milliseconds" secState)).start_var = 0 ∧
    (set_unit "seconds" (set_unit "milliseconds" secState)).end_var = 10 ∧
    toMs_spec "seconds" ((set_unit "seconds" (set_unit "milliseconds" secState)).start_var)
      ≠ toMs_spec "seconds" secState.start_var ∧
    toMs_spec "seconds" ((set_unit "seconds" (set_unit "milliseconds" secState)).end_var)
      ≠ toMs_spec "seconds" secState.end_var := by
  refine ⟨rfl, rfl, rfl, rfl, ?_, ?_⟩
  · rw [show (set_unit "seconds" (set_unit "milliseconds" secState)).start_var = 0 from rfl,
      show secState.start_var = 1 from rfl]
    unfold toMs_spec
    rw [if_pos rfl, if_pos rfl]
    norm_num
  · rw [show (set_unit "seconds" (set_unit "milliseconds" secState)).end_var = 10 from rfl,
      show secState.end_var = 9 from rfl]
    unfold toMs_spec
    rw [if_pos rfl, if_pos rfl]
    norm_num

/-- Claim C2 (amended): `update_unit` resets the sliders on every unit
switch, so after any switch the selection is `[0, max]` in the new unit,
and the double toggle Seconds→Milliseconds→Seconds yields the selection
`[0, duration]` independently of the prior selection (which therefore is
restored only when it already was the full range). -/
theorem unit_toggle_resets_selection (st : TrimmerState) (u : String) :
    (set_unit u st).start_var = 0 ∧
    (set_unit u st).end_var
      = (if u = "seconds" then st.audio_duration else st.audio_duration * 1000) ∧
    (set_unit "seconds" (set_unit "milliseconds" st)).start_var = 0 ∧
    (set_unit "seconds" (set_unit "milliseconds" st)).end_var = st.audio_duration := by
  exact ⟨rfl, rfl, rfl, rfl⟩

/-- Claim C8: loading a new file resets the selection to the full range of
the new buffer: the start boundary becomes `0` and the end boundary the
new duration expressed in the current display unit, i.e. canonically the
new buffer's full duration in milliseconds — whatever the previous
selection was. -/
theorem load_audio_resets_selection (st : TrimmerState) (buf : PydubAudio)
    (hu : st.time_unit = "seconds" ∨ st.time_unit = "milliseconds") :
    (load_audio st buf).start_var = 0 ∧
    (load_audio st buf).audio = some buf ∧
    toMs_spec st.time_unit ((load_audio st buf).end_var) = (buf.length_ms : ℤ) := by
  refine ⟨rfl, rfl, ?_⟩
  rcases hu with hu | hu
  · rw [load_audio_end_var, hu, if_pos rfl]
    unfold toMs_spec
    rw [if_pos rfl, div_mul_cancel₀ _ (by norm_num : (1000 : ℚ) ≠ 0)]
    exact Int.floor_natCast _
  · rw [load_audio_end_var, hu, if_neg (by decide)]
    unfold toMs_spec
    rw [if_neg (by decide), div_mul_cancel₀ _ (by norm_num : (1000 : ℚ) ≠ 0)]
    exact Int.floor_natCast _

/-- Witness for C8: loading a 4000 ms file over the 10 s state with
selection 1 s to 9 s yields selection start 0 and canonical end 4000 ms. -/
theorem load_audio_resets_selection_witness :
    (load_audio secState ⟨4000, 22050⟩).start_var = 0 ∧
    toMs_spec secState.time_unit ((load_audio secState ⟨4000, 22050⟩).end_var)
      = ((4000 : ℕ) : ℤ) :=
  ⟨(load_audio_resets_selection secState ⟨4000, 22050⟩ (Or.inl rfl)).1,
   (load_audio_resets_selection secState ⟨4000, 22050⟩ (Or.inl rfl)).2.2⟩

/-- Claim C5: on an empty sample slice the analysis returns four empty
sequences, performing no division (the normalization guard fails) and no
spectrum computation (the `len(samples) > 0` guard fails). -/
theorem analysis_empty_slice (fft : List FV → List FV) (rate : ℕ) (a b : ℚ) :
    update_waveform_analysis fft rate a b [] = ⟨[], [], [], []⟩ := rfl

/-- Claim C1 (divergence of code from spec): in the reachable
milliseconds-mode state with sliders at 1000 ms and 2000 ms, the code
computes `int(var * 1000)` regardless of the unit, so the millisecond
bounds it hands to slicing and export are (1000000, 2000000), while the
canonical interpretation of the displayed values (milliseconds pass
through, spec §4.1) is (1000, 2000).  The export path receives the same
scaled-twice values. -/
theorem ms_mode_scales_milliseconds_again :
    msModeState.time_unit = "milliseconds" ∧
    msModeState.start_var = 1000 ∧
    msModeState.end_var = 2000 ∧
    sliceRequestMs msModeState = (1000000, 2000000) ∧
    toMs_spec msModeState.time_unit msModeState.start_var = 1000 ∧
    toMs_spec msModeState.time_unit msModeState.end_var = 2000 ∧
    trim_audio msModeState "out.mp3"
      = TrimResult.exported 1000000 2000000 "out.mp3" "mp3" ∧
    ((1000000 : ℤ), (2000000 : ℤ)) ≠ ((1000 : ℤ), (2000 : ℤ)) := by
  have h1 : pyInt ((1000 : ℚ) * 1000) = 1000000 := by norm_num [pyInt]
  have h2 : pyInt ((2000 : ℚ) * 1000) = 2000000 := by norm_num [pyInt]
  refine ⟨rfl, rfl, rfl, ?_, ?_, ?_, ?_, by decide⟩
  · show (pyInt ((1000 : ℚ) * 1000), pyInt ((2000 : ℚ) * 1000)) = _
    rw [h1, h2]
  · show toMs_spec "milliseconds" 1000 = 1000
    unfold toMs_spec
    rw [if_neg (by decide)]
    norm_num
  · show toMs_spec "milliseconds" 2000 = 2000
    unfold toMs_spec
    rw [if_neg (by decide)]
    norm_num
  · simp only [trim_audio, msModeState, h1, h2]
    rw [if_neg (by decide : ¬ (some (⟨10000, 44100⟩ : PydubAudio) = none)),
      if_neg (by norm_num : ¬ (2000000 : ℤ) ≤ 1000000),
      if_neg (by decide : ¬ ("out.mp3" = "")),
      show lastDotComponent "out.mp3" = "mp3" from by decide]

/-- Claim C4: with a buffer loaded, export fails with the validation
message "End time must be greater than start time." whenever the computed
millisecond bounds satisfy `start_ms >= end_ms`, and in that case the
result carries no export action (the code returns before the save dialog,
so no filesystem write happens); when `start_ms < end_ms` and the user
picks a path, the result is an export action over `[start_ms, end_ms)`
with the format taken as the last dot-component of the path. -/
theorem trim_audio_validates_range (st : TrimmerState) (a : PydubAudio)
    (output_path : String) (ha : st.audio = some a) :
    (pyInt (st.end_var * 1000) ≤ pyInt (st.start_var * 1000) →
      trim_audio st output_path
        = TrimResult.errorMsg "End time must be greater than start time.") ∧
    (pyInt (st.start_var * 1000) < pyInt (st.end_var * 1000) → output_path ≠ "" →
      trim_audio st output_path
        = TrimResult.exported (pyInt (st.start_var * 1000)) (pyInt (st.end_var * 1000))
            output_path (lastDotComponent output_path)) := by
  have hnn : ¬ (st.audio = none) := by rw [ha]; exact fun h => Option.noConfusion h
  constructor
  · intro h
    simp only [trim_audio]
    rw [if_neg hnn, if_pos h]
  · intro h hp
    simp only [trim_audio]
    rw [if_neg hnn, if_neg (not_le.mpr h), if_neg hp]

/-- Witness for C4, the export scenario of spec §8 on a 5 s buffer: the
inverted selection 2 s to 1 s is rejected with the validation message and
the valid selection 1 s to 2 s is exported over [1000, 2000) as mp3. -/
theorem trim_audio_validates_range_witness :
    trim_audio invertedState "out.mp3"
      = TrimResult.errorMsg "End time must be greater than start time." ∧
    trim_audio validState "out.mp3"
      = TrimResult.exported 1000 2000 "out.mp3" "mp3" := by
  constructor
  · exact (trim_audio_validates_range invertedState ⟨5000, 44100⟩ "out.mp3" rfl).1
      (by show pyInt ((1 : ℚ) * 1000) ≤ pyInt ((2 : ℚ) * 1000); norm_num [pyInt])
  · have h := (trim_audio_validates_range validState ⟨5000, 44100⟩ "out.mp3" rfl).2
      (by show pyInt ((1 : ℚ) * 1000) < pyInt ((2 : ℚ) * 1000); norm_num [pyInt])
      (by decide)
    rw [h, show pyInt (validState.start_var * 1000) = 1000 from by
        show pyInt ((1 : ℚ) * 1000) = 1000; norm_num [pyInt],
      show pyInt (validState.end_var * 1000) = 2000 from by
        show pyInt ((2 : ℚ) * 1000) = 2000; norm_num [pyInt],
      show lastDotComponent "out.mp3" = "mp3" from by decide]

/-- Claim C7: on a pointer press at `x` with a buffer loaded, the handler
enters the start drag and moves the start boundary to `x` when the start
boundary is strictly closer to `x` than the end boundary, and otherwise
enters the end drag and moves the end boundary to `x`. -/
theorem on_press_selects_closer_boundary (st : TrimmerState) (a : PydubAudio) (x : ℚ)
    (ha : st.audio = some a) :
    (|x - st.start_var| < |x - st.end_var| →
      on_press st (some x) = { st with dragging := some "start", start_var := x }) ∧
    (¬ |x - st.start_var| < |x - st.end_var| →
      on_press st (some x) = { st with dragging := some "end", end_var := x }) := by
  obtain ⟨audio, sr, dur, tu, sv, ev, dr, us, sto, sres⟩ := st
  simp only at ha
  subst ha
  constructor
  · intro h
    rw [on_press.eq_def]
    exact if_pos h
  · intro h
    rw [on_press.eq_def]
    exact if_neg h

/-- Witness for C7, the drag scenario of spec §8: with selection
(1000, 9000), a press at 950 starts a start-boundary drag (distance 50
against 8050) and a press at 8900 starts an end-boundary drag. -/
theorem on_press_selects_closer_boundary_witness :
    (on_press pressState (some 950)).dragging = some "start" ∧
    (on_press pressState (some 8900)).dragging = some "end" := by
  constructor
  · have h := (on_press_selects_closer_boundary pressState ⟨10000, 44100⟩ 950 rfl).1
      (by
        show |(950 : ℚ) - 1000| < |(950 : ℚ) - 9000|
        rw [show (950 : ℚ) - 1000 = -50 by norm_num,
          show (950 : ℚ) - 9000 = -8050 by norm_num, abs_neg, abs_neg,
          abs_of_nonneg (by norm_num : (0 : ℚ) ≤ 50),
          abs_of_nonneg (by norm_num : (0 : ℚ) ≤ 8050)]
        norm_num)
    rw [h]
  · have h := (on_press_selects_closer_boundary pressState ⟨10000, 44100⟩ 8900 rfl).2
      (by
        show ¬ |(8900 : ℚ) - 1000| < |(8900 : ℚ) - 9000|
        rw [show (8900 : ℚ) - 1000 = 7900 by norm_num,
          show (8900 : ℚ) - 9000 = -100 by norm_num, abs_neg,
          abs_of_nonneg (by norm_num : (0 : ℚ) ≤ 7900),
          abs_of_nonneg (by norm_num : (0 : ℚ) ≤ 100)]
        norm_num)
    rw [h]

/-- Claim C9 (counterexample): the press handler stores the raw pointer
coordinate without clamping it into `[0, durationMs]`: pressing at
coordinate -1 on the loaded 10000 ms state stores the negative value -1
as the start boundary, so the claimed clamping does not happen. -/
theorem press_stores_unclamped_counterexample :
    (on_press pressState (some (-1))).start_var = -1 ∧ ((-1 : ℚ) < 0) := by
  refine ⟨?_, by norm_num⟩
  have h : on_press pressState (some (-1))
      = { pressState with dragging := some "start", start_var := -1 } := by
    rw [on_press.eq_def]
    refine if_pos ?_
    show |(-1 : ℚ) - 1000| < |(-1 : ℚ) - 9000|
    rw [show (-1 : ℚ) - 1000 = -1001 by norm_num,
      show (-1 : ℚ) - 9000 = -9001 by norm_num, abs_neg, abs_neg,
      abs_of_nonneg (by norm_num : (0 : ℚ) ≤ 1001),
      abs_of_nonneg (by norm_num : (0 : ℚ) ≤ 9001)]
    norm_num
  rw [h]

/-- Claim C9 (amended): pointer press and pointer drag store the incoming
coordinate exactly as received — no clamping into `[0, durationMs]` takes
place in these handlers (the slider widgets bound their own values, and
`start < end` is likewise not enforced anywhere before export). -/
theorem press_and_drag_store_raw_coordinate (st : TrimmerState) (a : PydubAudio) (x : ℚ)
    (ha : st.audio = some a) :
    (|x - st.start_var| < |x - st.end_var| → (on_press st (some x)).start_var = x) ∧
    (¬ |x - st.start_var| < |x - st.end_var| → (on_press st (some x)).end_var = x) ∧
    (st.dragging = some "start" → x ≠ 0 → (on_drag st (some x)).start_var = x) ∧
    (st.dragging = some "end" → x ≠ 0 → (on_drag st (some x)).end_var = x) := by
  obtain ⟨audio, sr, dur, tu, sv, ev, dr, us, sto, sres⟩ := st
  simp only at ha ⊢
  subst ha
  refine ⟨?_, ?_, ?_, ?_⟩
  · intro h
    rw [show on_press ⟨some a, sr, dur, tu, sv, ev, dr, us, sto, sres⟩ (some x)
        = { audio := some a, sample_rate := sr, audio_duration := dur, time_unit := tu,
            start_var := x, end_var := ev, dragging := some "start",
            updating_sliders := us, slider_to := sto, slider_resolution := sres }
      from by rw [on_press.eq_def]; exact if_pos h]
  · intro h
    rw [show on_press ⟨some a, sr, dur, tu, sv, ev, dr, us, sto, sres⟩ (some x)
        = { audio := some a, sample_rate := sr, audio_duration := dur, time_unit := tu,
            start_var := sv, end_var := x, dragging := some "end",
            updating_sliders := us, slider_to := sto, slider_resolution := sres }
      from by rw [on_press.eq_def]; exact if_neg h]
  · intro hd hx
    subst hd
    rw [on_drag.eq_def,
      if_pos (⟨by decide, decide_eq_true hx⟩ :
        truthy_drag (some "start") = true ∧ truthy_x (some x) = true)]
    rfl
  · intro hd hx
    subst hd
    rw [on_drag.eq_def,
      if_pos (⟨by decide, decide_eq_true hx⟩ :
        truthy_drag (some "end") = true ∧ truthy_x (some x) = true)]
    rfl

/-- Witness for the amended C9: a press at -1 stores -1 as the start
boundary, and a drag move to 10500 (beyond the duration) while the start
boundary is being dragged stores 10500. -/
theorem press_and_drag_store_raw_coordinate_witness :
    (on_press pressState (some (-1))).start_var = -1 ∧
    (on_drag dragStartState (some 10500)).start_var = 10500 := by
  constructor
  · exact (press_and_drag_store_raw_coordinate pressState ⟨10000, 44100⟩ (-1) rfl).1
      (by
        show |(-1 : ℚ) - 1000| < |(-1 : ℚ) - 9000|
        rw [show (-1 : ℚ) - 1000 = -1001 by norm_num,
          show (-1 : ℚ) - 9000 = -9001 by norm_num, abs_neg, abs_neg,
          abs_of_nonneg (by norm_num : (0 : ℚ) ≤ 1001),
          abs_of_nonneg (by norm_num : (0 : ℚ) ≤ 9001)]
        norm_num)
  · exact (press_and_drag_store_raw_coordinate dragStartState ⟨10000, 44100⟩ 10500 rfl).2.2.1
      rfl (by norm_num)

/-- Claim C10: while a drag is in progress, a pointer move whose time
coordinate is exactly 0.0 changes nothing: the guard tests the coordinate
for Python truthiness, so position 0 — a valid position — is treated
exactly like a missing coordinate (`xdata is None`). -/
theorem on_drag_zero_coordinate_noop (st : TrimmerState)
    (_h : st.dragging = some "start" ∨ st.dragging = some "end") :
    on_drag st (some 0) = st ∧ on_drag st (some 0) = on_drag st none := by
  have e0 : on_drag st (some 0) = st := by
    rw [on_drag.eq_def]
    exact if_neg (fun hc => by simpa [truthy_x] using hc.2)
  have e1 : on_drag st none = st := by
    rw [on_drag.eq_def]
    exact if_neg (fun hc => by simpa [truthy_x] using hc.2)
  exact ⟨e0, e0.trans e1.symm⟩

/-- Witness for C10: with a start-boundary drag in progress, a move to
coordinate 0 leaves the state unchanged. -/
theorem on_drag_zero_coordinate_noop_witness :
    on_drag dragStartState (some 0) = dragStartState :=
  (on_drag_zero_coordinate_noop dragStartState (Or.inl rfl)).1

/-! Lemmas on the normalization step. -/

theorem maxAbs_of_all_zero : ∀ {l : List ℤ}, (∀ y ∈ l, y = 0) → maxAbs l = 0 := by
  intro l
  induction l with
  | nil => intro _; rfl
  | cons x t ih =>
    intro hz
    have hx : x = 0 := hz x (List.mem_cons_self x t)
    have ht : maxAbs t = 0 := ih fun y hy => hz y (List.mem_cons_of_mem x hy)
    simp only [maxAbs, List.foldr_cons] at ht ⊢
    rw [hx, ht]
    rfl

theorem analysis_amplitudes (fft : List FV → List FV) (rate : ℕ) (a b : ℚ)
    (raw : List ℤ) :
    (update_waveform_analysis fft rate a b raw).amplitudes = npNormalize raw := by
  simp only [update_waveform_analysis]
  split <;> rfl

theorem npNormalize_all_zero {l : List ℤ} (hne : l ≠ []) (hz : ∀ y ∈ l, y = 0) :
    npNormalize l = List.replicate l.length FV.nan := by
  unfold npNormalize
  rw [if_pos (List.length_pos.mpr hne)]
  have key : ∀ x ∈ l, ieeeDivZ x (maxAbs l) = FV.nan := by
    intro x hx
    rw [maxAbs_of_all_zero hz, hz x hx]
    rfl
  refine List.eq_replicate_iff.mpr ⟨by simp, ?_⟩
  intro v hv
  obtain ⟨x, hx, hfx⟩ := List.mem_map.mp hv
  rw [← hfx]
  exact key x hx

/-- Claim C3 (counterexample): on the non-empty all-zero slice `[0, 0]`
the analysis does not skip normalization: line 106 guards only against an
empty slice, so numpy divides `0/0` elementwise, and the resulting
amplitude sequence is NaN everywhere rather than all-zero.  (No exception
is raised — numpy produces NaN silently — but the claimed all-zero output
and the claimed absence of a division by zero both fail.) -/
theorem zero_slice_normalization_counterexample :
    (update_waveform_analysis (fun l => l) 44100 0 1 [0, 0]).amplitudes
      = [FV.nan, FV.nan] ∧
    (update_waveform_analysis (fun l => l) 44100 0 1 [0, 0]).amplitudes
      ≠ [FV.fin 0, FV.fin 0] := by
  have e : (update_waveform_analysis (fun l => l) 44100 0 1 [0, 0]).amplitudes
      = [FV.nan, FV.nan] := rfl
  rw [e]
  exact ⟨rfl, by decide⟩

/-- Claim C3 (amended): on every non-empty slice the code divides each
sample by the maximum absolute sample value with numpy semantics; when
that maximum is zero (all-zero slice) the division still happens and every
amplitude is NaN — no error is raised, but normalization is not skipped —
and when the maximum is nonzero every sample is divided by it exactly as
the claim states. -/
theorem normalization_divides_by_max (fft : List FV → List FV) (rate : ℕ)
    (a b : ℚ) (raw : List ℤ) (hne : raw ≠ []) :
    (update_waveform_analysis fft rate a b raw).amplitudes
      = raw.map (fun x => ieeeDivZ x (maxAbs raw)) ∧
    ((∀ y ∈ raw, y = 0) → (update_waveform_analysis fft rate a b raw).amplitudes
      = List.replicate raw.length FV.nan) ∧
    (maxAbs raw ≠ 0 → (update_waveform_analysis fft rate a b raw).amplitudes
      = raw.map (fun x : ℤ => FV.fin ((x : ℚ) / (maxAbs raw : ℚ)))) := by
  refine ⟨?_, ?_, ?_⟩
  · rw [analysis_amplitudes]
    unfold npNormalize
    rw [if_pos (List.length_pos.mpr hne)]
  · intro hz
    rw [analysis_amplitudes, npNormalize_all_zero hne hz]
  · intro hm
    rw [analysis_amplitudes]
    unfold npNormalize
    rw [if_pos (List.length_pos.mpr hne)]
    refine List.map_congr_left ?_
    intro x _
    unfold ieeeDivZ
    rw [if_neg hm]

/-- Witness for the amended C3: the all-zero slice `[0, 0]` yields NaN
amplitudes, and the slice `[2, -4]` (maximum absolute value 4) yields the
exact quotients. -/
theorem normalization_divides_by_max_witness :
    (update_waveform_analysis (fun l => l) 8 0 1 [0, 0]).amplitudes
      = List.replicate 2 FV.nan ∧
    (update_waveform_analysis (fun l => l) 8 0 1 [2, -4]).amplitudes
      = ([2, -4] : List ℤ).map (fun x : ℤ => FV.fin ((x : ℚ) / ((maxAbs [2, -4] : ℕ) : ℚ))) :=
  ⟨(normalization_divides_by_max (fun l => l) 8 0 1 [0, 0] (by decide)).2.1
      (by decide),
   (normalization_divides_by_max (fun l => l) 8 0 1 [2, -4] (by decide)).2.2
      (by decide)⟩

/-! Arithmetic lemmas for the buffer slice. -/

theorem msToFrame_mono (rate : ℕ) {s e : ℕ} (h : s ≤ e) :
    msToFrame rate s ≤ msToFrame rate e :=
  Nat.div_le_div_right (Nat.mul_le_mul_right rate h)

theorem msToFrame_duration_le (rate frames : ℕ) :
    msToFrame rate (frames * 1000 / rate) ≤ frames := by
  unfold msToFrame
  calc frames * 1000 / rate * rate / 1000
      ≤ frames * 1000 / 1000 := Nat.div_le_div_right (Nat.div_mul_le_self _ _)
    _ = frames := by omega

theorem clampMs_of_le {dur s : ℕ} (h : s ≤ dur) : clampMs dur (s : ℤ) = s := by
  simp only [clampMs]
  omega

theorem clampMs_cast (dur : ℕ) (t : ℤ) :
    clampMs dur ((clampMs dur t : ℕ) : ℤ) = clampMs dur t := by
  simp only [clampMs]
  omega

/-- A stereo buffer whose frame boundaries do not align with the
millisecond grid: 3 frames of 2 interleaved samples at 3 Hz, so 1000 ms.
Slicing it over [500, 1000] keeps frames 1 and 2 — four samples — while
`floor(500/1000 * 3) * 2 = 2`: the two values differ by a whole frame,
i.e. by two samples. -/
def unevenBuffer : AudioBuffer := ⟨[1, 2, 3, 4, 5, 6], 3, 2, 1000⟩

/-- Claim C6 (counterexample): the one-sample tolerance of the claimed
length formula fails for multi-channel buffers.  `unevenBuffer` satisfies
the data-model invariants (6 samples = 3 frames * 2 channels, durationMs
= floor(3 * 1000 / 3)), the request [500, 1000] lies inside
[0, durationMs], yet the slice holds 4 samples where the formula
`floor((endMs-startMs)/1000 * sampleRate) * channelCount` gives 2 — a
discrepancy of two samples, more than one. -/
theorem slice_length_one_sample_counterexample :
    unevenBuffer.samples.length = 3 * unevenBuffer.channelCount ∧
    unevenBuffer.durationMs = 3 * 1000 / unevenBuffer.sampleRate ∧
    (500 : ℕ) ≤ unevenBuffer.durationMs ∧ (1000 : ℕ) ≤ unevenBuffer.durationMs ∧
    (unevenBuffer.slice 500 1000).length = 4 ∧
    (1000 - 500) * unevenBuffer.sampleRate / 1000 * unevenBuffer.channelCount = 2 ∧
    ¬ ((4 : ℕ) ≤ 2 + 1) := by decide

/-- Claim C6 (amended): the slice operation (modelled from spec §4.2,
since pydub implements it) clamps both bounds into `[0, durationMs]` — so
no request, inverted or out of range, can fail — returns the empty
sequence whenever `startMs >= endMs` after clamping, and for bounds
inside `[0, durationMs]` returns a sequence whose length is
`floor((endMs-startMs)/1000 * sampleRate) * channelCount` up to one frame
(`channelCount` samples, rather than the claimed single sample) of
rounding; for mono buffers one frame and one sample coincide. -/
theorem slice_clamps_and_has_expected_length (b : AudioBuffer) (frames : ℕ)
    (hlen : b.samples.length = frames * b.channelCount)
    (hdur : b.durationMs = frames * 1000 / b.sampleRate)
    (s e : ℕ) (hs : s ≤ b.durationMs) (he : e ≤ b.durationMs) :
    (∀ s' e' : ℤ, b.slice s' e'
        = b.slice ((clampMs b.durationMs s' : ℕ) : ℤ) ((clampMs b.durationMs e' : ℕ) : ℤ)) ∧
    (e ≤ s → b.slice (s : ℤ) (e : ℤ) = []) ∧
    (e - s) * b.sampleRate / 1000 * b.channelCount ≤ (b.slice (s : ℤ) (e : ℤ)).length ∧
    (b.slice (s : ℤ) (e : ℤ)).length
      ≤ (e - s) * b.sampleRate / 1000 * b.channelCount + b.channelCount := by
  refine ⟨?_, ?_, ?_⟩
  · intro s' e'
    simp only [AudioBuffer.slice, clampMs_cast]
  · intro h
    simp only [AudioBuffer.slice, clampMs_of_le hs, clampMs_of_le he]
    rw [if_pos h]
  · by_cases hc : e ≤ s
    · have hz : b.slice (s : ℤ) (e : ℤ) = [] := by
        simp only [AudioBuffer.slice, clampMs_of_le hs, clampMs_of_le he]
        rw [if_pos hc]
      rw [hz]
      have hes : e - s = 0 := by omega
      rw [hes]
      simp
    · have hfe : msToFrame b.sampleRate e ≤ frames := by
        refine le_trans (msToFrame_mono b.sampleRate he) ?_
        rw [hdur]
        exact msToFrame_duration_le b.sampleRate frames
      have hse : msToFrame b.sampleRate s ≤ msToFrame b.sampleRate e :=
        msToFrame_mono b.sampleRate (by omega)
      have hlen2 : (b.slice (s : ℤ) (e : ℤ)).length
          = (msToFrame b.sampleRate e - msToFrame b.sampleRate s) * b.channelCount := by
        simp only [AudioBuffer.slice, clampMs_of_le hs, clampMs_of_le he]
        rw [if_neg hc, List.length_take, List.length_drop, hlen]
        have h1 : (msToFrame b.sampleRate e - msToFrame b.sampleRate s) * b.channelCount
            + msToFrame b.sampleRate s * b.channelCount ≤ frames * b.channelCount := by
          rw [← Nat.add_mul]
          exact Nat.mul_le_mul_right b.channelCount (by omega)
        omega
      have key : (e - s) * b.sampleRate / 1000
            ≤ msToFrame b.sampleRate e - msToFrame b.sampleRate s ∧
          msToFrame b.sampleRate e - msToFrame b.sampleRate s
            ≤ (e - s) * b.sampleRate / 1000 + 1 := by
        have hsplit : e * b.sampleRate = s * b.sampleRate + (e - s) * b.sampleRate := by
          rw [← Nat.add_mul]
          congr 1
          omega
        unfold msToFrame
        rw [hsplit]
        generalize s * b.sampleRate = u
        generalize (e - s) * b.sampleRate = v
        omega
      constructor
      · rw [hlen2]
        exact Nat.mul_le_mul_right b.channelCount key.1
      · rw [hlen2]
        calc (msToFrame b.sampleRate e - msToFrame b.sampleRate s) * b.channelCount
            ≤ ((e - s) * b.sampleRate / 1000 + 1) * b.channelCount :=
              Nat.mul_le_mul_right b.channelCount key.2
          _ = (e - s) * b.sampleRate / 1000 * b.channelCount + b.channelCount := by
              rw [Nat.add_mul, one_mul]

/-- Witness for C6: an 8-sample stereo buffer at 4 Hz (4 frames, 1000 ms):
the full-range slice has all 8 samples, within the stated bounds. -/
theorem slice_clamps_and_has_expected_length_witness :
    8 ≤ ((⟨[1, 2, 3, 4, 5, 6, 7, 8], 4, 2, 1000⟩ : AudioBuffer).slice 0 1000).length ∧
    ((⟨[1, 2, 3, 4, 5, 6, 7, 8], 4, 2, 1000⟩ : AudioBuffer).slice 0 1000).length ≤ 10 :=
  (slice_clamps_and_has_expected_length ⟨[1, 2, 3, 4, 5, 6, 7, 8], 4, 2, 1000⟩ 4
    rfl rfl 0 1000 (Nat.zero_le _) le_rfl).2.2

end AudioTrim
